import Mathlib

/-!
Shallow embedding of the gz-omniverse live-session mesh/material converter
(`source/liveSession/Mesh.cpp` and `source/liveSession/Util.cpp`).

External collaborators (gz-common filesystem/search/URI, the USD stage, the
mesh loader) are modelled as explicit oracles/records; the converter's own
logic (path sanitizing, submesh selection, topology handling, material
conversion and naming, texture relocation, binding) is translated directly
from the source.
-/

set_option linter.unusedVariables false

/-! ## Basic value types -/

/-- A 3-component vector (models `gz::math::Vector3d` / `pxr::GfVec3f` values). -/
structure Vec3 where
  x : Rat
  y : Rat
  z : Rat
deriving DecidableEq, Repr

/-- A 2-component vector (texture coordinates, `pxr::GfVec2f`). -/
structure Vec2 where
  u : Rat
  v : Rat
deriving DecidableEq, Repr

/-- An RGBA color (models `gz::math::Color`).  Channels are modelled as exact
rationals; the converter only copies and compares them. -/
structure Color where
  r : Rat
  g : Rat
  b : Rat
  a : Rat
deriving DecidableEq, Repr

/-- The fully-opaque black default color `gz::math::Color(0, 0, 0, 1)` used in
the material-binding comparison in `UpdateMesh`. -/
def blackOpaque : Color := ⟨0, 0, 0, 1⟩

/-! ## Path sanitizer (`Util.cpp`, `validPath`) -/

/-- Model of `gz::common::replaceAll` restricted to a single-character
pattern: every occurrence of `c` in `s` is replaced with the characters `t`
(`t = []` removes the character, `t = [ch]` substitutes it). -/
def replaceAll (s : String) (c : Char) (t : List Char) : String :=
  ⟨s.data.flatMap (fun ch => if ch = c then t else [ch])⟩

/-- The replacement pipeline of `validPath`: remove spaces, then replace each
of `.`, `-`, `<`, `>`, `[`, `]` with an underscore (source lines 14-20 of
`Util.cpp`). -/
def sanitizeChars (path : String) : String :=
  let r := replaceAll path ' ' []
  let r := replaceAll r '.' ['_']
  let r := replaceAll r '-' ['_']
  let r := replaceAll r '<' ['_']
  let r := replaceAll r '>' ['_']
  let r := replaceAll r '[' ['_']
  replaceAll r ']' ['_']

/-- First-character digit test of `validPath`.  `std::string::operator[]`
at `pos == size()` returns the null character (C++11), and `isdigit('\0')`
is false, so the empty string yields `false`. -/
def firstIsDigit (s : String) : Bool :=
  match s.data with
  | [] => false
  | c :: _ => c.isDigit

/-- `gz::omniverse::validPath` (`Util.cpp` lines 7-26). -/
def validPath (path : String) : String :=
  if path = "" then ""
  else
    let result := sanitizeChars path
    if firstIsDigit result then "_" ++ result else result

/-- `validPath` with the first-character access of the digit check guarded:
indexing into an empty sanitized result takes the out-of-bounds error branch
and yields `none`.  Same source lines as `validPath`. -/
def validPathGuarded (path : String) : Option String :=
  if path = "" then some ""
  else
    let result := sanitizeChars path
    match result.data with
    | [] => none
    | c :: _ => some (if c.isDigit then "_" ++ result else result)

/-! ## String helpers (modelled gz-common utilities) -/

/-- Model of `gz::common::lowercase`: per-character ASCII lower-casing. -/
def lowercase (s : String) : String := ⟨s.data.map Char.toLower⟩

/-- Substring test on character lists: does `hay` contain `needle` as a
contiguous infix?  Models `std::string::find(needle) != npos`. -/
def containsSub (needle : List Char) : List Char → Bool
  | [] => needle.isEmpty
  | c :: t => needle.isPrefixOf (c :: t) || containsSub needle t

/-- `hay.find(needle) != std::string::npos` on strings. -/
def strContains (hay needle : String) : Bool := containsSub needle.data hay.data

/-- Model of the file-local `endsWith` helper of `Mesh.cpp` (lines 41-45). -/
def strEndsWith (s suffix : String) : Bool := suffix.data.isSuffixOf s.data

/-- Model of `gz::common::basename`: the component after the last `/`. -/
def basename (s : String) : String :=
  match (s.splitOn "/").reverse with
  | [] => ""
  | x :: _ => x

/-- Model of `gz::common::joinPaths` on clean segments: join with `/`. -/
def joinPaths : List String → String
  | [] => ""
  | [p] => p
  | p :: q :: rest => p ++ "/" ++ joinPaths (q :: rest)

/-! ## Simulation-side material data model (`gz::common::Material`) -/

/-- `gz::common::PbrType`. -/
inductive PbrType
  | none
  | metal
  | specular
deriving DecidableEq, Repr

/-- Normal-map coordinate space (`gz::common::NormalMapSpace` and
`sdf::NormalMapSpace`). -/
inductive NormalMapSpace
  | tangent
  | object
deriving DecidableEq, Repr

/-- `gz::common::Pbr`: the native PBR record of a loaded mesh material. -/
structure CommonPbr where
  pbrType : PbrType
  albedoMap : String
  normalMap : String
  normalMapType : NormalMapSpace
  metalnessMap : String
  emissiveMap : String
  roughnessMap : String
  specularMap : String
  environmentMap : String
  ambientOcclusionMap : String
  lightMap : String
  roughness : Rat
  glossiness : Rat
  metalness : Rat
deriving DecidableEq, Repr

/-- `gz::common::Material`: the native material record of a loaded mesh. -/
structure CommonMaterial where
  emissive : Color
  diffuse : Color
  specular : Color
  ambient : Color
  renderOrder : Rat
  lighting : Bool
  twoSidedEnabled : Bool
  textureImage : String
  pbrMaterial : Option CommonPbr
deriving DecidableEq, Repr

/-- A plain default `gz::common::Material` used to model dereferencing an
out-of-range material index (the source does not guard this case; no claim
exercises it). -/
def defaultCommonMaterial : CommonMaterial :=
  { emissive := blackOpaque
    diffuse := blackOpaque
    specular := blackOpaque
    ambient := blackOpaque
    renderOrder := 0
    lighting := true
    twoSidedEnabled := false
    textureImage := ""
    pbrMaterial := Option.none }

/-! ## SDF material data model (`sdf::Material`, `sdf::Pbr`) -/

/-- `sdf::PbrWorkflowType`. -/
inductive PbrWorkflowType
  | metal
  | specular
deriving DecidableEq, Repr

/-- `sdf::PbrWorkflow`. -/
structure SdfPbrWorkflow where
  workflowType : PbrWorkflowType
  albedoMap : String
  metalnessMap : String
  emissiveMap : String
  roughnessMap : String
  specularMap : String
  environmentMap : String
  ambientOcclusionMap : String
  lightMap : String
  normalMap : String
  normalMapSpace : NormalMapSpace
  roughness : Rat
  glossiness : Rat
  metalness : Rat
deriving DecidableEq, Repr

/-- A default-constructed `sdf::PbrWorkflow` (external-library defaults;
only the fields the converter sets are relied on by any claim). -/
def defaultSdfPbrWorkflow : SdfPbrWorkflow :=
  { workflowType := PbrWorkflowType.metal
    albedoMap := ""
    metalnessMap := ""
    emissiveMap := ""
    roughnessMap := ""
    specularMap := ""
    environmentMap := ""
    ambientOcclusionMap := ""
    lightMap := ""
    normalMap := ""
    normalMapSpace := NormalMapSpace.object
    roughness := 1/2
    glossiness := 0
    metalness := 1/2 }

/-- `sdf::Pbr`: one optional workflow per variant, as stored by
`sdf::Pbr::SetWorkflow`. -/
structure SdfPbr where
  metal : Option SdfPbrWorkflow
  specular : Option SdfPbrWorkflow
deriving DecidableEq, Repr

/-- The workflow selection of `ParseSdfMaterial` (`Mesh.cpp` lines 297-302):
`pbr->Workflow(METAL)`, falling back to `pbr->Workflow(SPECULAR)`. -/
def SdfPbr.selectedWorkflow (p : SdfPbr) : Option SdfPbrWorkflow :=
  match p.metal with
  | some w => some w
  | Option.none => p.specular

/-- `sdf::Material`. -/
structure SdfMaterial where
  emissive : Color
  diffuse : Color
  specular : Color
  ambient : Color
  renderOrder : Rat
  lighting : Bool
  doubleSided : Bool
  normalMap : String
  pbrMaterial : Option SdfPbr
deriving DecidableEq, Repr

/-! ## `convert` (`Mesh.cpp` lines 521-589) -/

/-- The file-local `convert(const gz::common::Material *)` of `Mesh.cpp`:
value-copies the native material into an `sdf::Material`.  If a native PBR
record exists, its fields are copied into a workflow whose albedo map falls
back to the legacy single texture image when the record's albedo map is
empty; if no PBR record exists but a legacy texture image is set, a
specular-variant workflow holding only that texture is synthesized. -/
def convert (m : CommonMaterial) : SdfMaterial :=
  let base : SdfMaterial :=
    { emissive := m.emissive
      diffuse := m.diffuse
      specular := m.specular
      ambient := m.ambient
      renderOrder := m.renderOrder
      lighting := m.lighting
      doubleSided := m.twoSidedEnabled
      normalMap := ""
      pbrMaterial := Option.none }
  match m.pbrMaterial with
  | some pbr =>
    let wf : SdfPbrWorkflow :=
      { workflowType :=
          if pbr.pbrType = PbrType.specular then PbrWorkflowType.specular
          else PbrWorkflowType.metal
        albedoMap := if ¬ pbr.albedoMap = "" then pbr.albedoMap else m.textureImage
        metalnessMap := pbr.metalnessMap
        emissiveMap := pbr.emissiveMap
        roughnessMap := pbr.roughnessMap
        specularMap := pbr.specularMap
        environmentMap := pbr.environmentMap
        ambientOcclusionMap := pbr.ambientOcclusionMap
        lightMap := pbr.lightMap
        normalMap := pbr.normalMap
        normalMapSpace :=
          if pbr.normalMapType = NormalMapSpace.tangent then NormalMapSpace.tangent
          else NormalMapSpace.object
        roughness := pbr.roughness
        glossiness := pbr.glossiness
        metalness := pbr.metalness }
    let pbrOut : SdfPbr :=
      if pbr.pbrType = PbrType.specular then
        { metal := Option.none, specular := some wf }
      else
        { metal := some wf, specular := Option.none }
    { base with normalMap := pbr.normalMap, pbrMaterial := some pbrOut }
  | Option.none =>
    if ¬ m.textureImage = "" then
      let wf : SdfPbrWorkflow := { defaultSdfPbrWorkflow with albedoMap := m.textureImage }
      { base with pbrMaterial := some { metal := Option.none, specular := some wf } }
    else base

/-! ## Scene-graph (USD stage) model -/

/-- A typed shader-input value. -/
inductive AttrVal
  | color3 (r g b : Rat)
  | boolean (b : Bool)
  | float (x : Rat)
  | asset (path : String)
deriving DecidableEq, Repr

/-- One created material primitive (`/Looks/Material_<idx>` and its shader's
inputs). -/
structure MaterialPrim where
  idx : Nat
  attrs : List (String × AttrVal)
deriving DecidableEq, Repr

/-- The hierarchical path of a material primitive. -/
def MaterialPrim.path (m : MaterialPrim) : String :=
  "/Looks/Material_" ++ toString m.idx

/-- One created geometry primitive (`pxr::UsdGeomMesh`) with the attributes
`UpdateMesh` sets. -/
structure GeomPrim where
  path : String
  points : List Vec3
  faceVertexIndices : List Int
  faceVertexCounts : List Nat
  primvarSt : List Vec2
  normals : List Vec3
  extent : List Vec3
  scale : Vec3
deriving DecidableEq, Repr

/-- A default geometry primitive (used only for total last-element access in
statements). -/
def noGeom : GeomPrim :=
  { path := ""
    points := []
    faceVertexIndices := []
    faceVertexCounts := []
    primvarSt := []
    normals := []
    extent := []
    scale := ⟨1, 1, 1⟩ }

/-- The target USD stage, reduced to what the converter creates: geometry
primitives, material primitives, and material-to-geometry bindings
(`(geometry path, material path)` pairs), each in creation order. -/
structure Stage where
  geoms : List GeomPrim
  materials : List MaterialPrim
  bindings : List (String × String)
deriving DecidableEq, Repr

/-- A record of one texture-copy attempt (`copyMaterial` call):
destination, resolved source, and whether the copy succeeded. -/
structure CopyEvent where
  dst : String
  src : String
  ok : Bool
deriving DecidableEq, Repr

/-- Diagnostic trace of a conversion call: `findFile` searches,
`AddFilePaths` registrations, texture-copy attempts. -/
structure Trace where
  searches : List String
  registrations : List String
  copies : List CopyEvent
deriving DecidableEq, Repr

/-! ## Filesystem oracles -/

/-- The filesystem collaborators used by material parsing:
`gz::common::findFile` (`none` models the empty-string miss) and the
success/failure outcome of `gz::common::copyFile src dst`. -/
structure FsEnv where
  findFile : String → Option String
  copyOk : String → String → Bool

/-- `getMaterialCopyPath` (`Mesh.cpp` lines 71-77): relative destination
`materials/textures/<basename>`. -/
def getMaterialCopyPath (uri : String) : String :=
  joinPaths ["materials", "textures", basename uri]

/-- The file-local `copyMaterial` (`Mesh.cpp` lines 51-65): with both paths
non-empty, create destination directories and copy; the outcome is the
filesystem oracle's answer.  Otherwise false. -/
def copyMaterial (env : FsEnv) (path fullPath : String) : Bool :=
  if ¬ path = "" ∧ ¬ fullPath = "" then env.copyOk fullPath path else false

/-! ## `ParseSdfMaterial` (`Mesh.cpp` lines 149-519) -/

/-- One texture channel of `ParseSdfMaterial`: if the map reference is
non-empty, resolve the source (`findFile` on the basename, else the original
reference), attempt the copy into `materials/textures/<basename>`, and set
the shader input `inputName` to the destination path regardless of the copy
outcome. -/
def textureChannel (env : FsEnv) (inputName : String) (map : String) :
    List (String × AttrVal) × List CopyEvent :=
  if ¬ map = "" then
    let copyPath := getMaterialCopyPath map
    let fullname :=
      match env.findFile (basename map) with
      | some f => f
      | Option.none => map
    let ok := copyMaterial env copyPath fullname
    ([(inputName, AttrVal.asset copyPath)], [⟨copyPath, fullname, ok⟩])
  else ([], [])

/-- `ParseSdfMaterial`: creates `/Looks/Material_<counter>` (the source's
process-lifetime `static int i`, threaded here as explicit state), populates
the fixed shader schema, and performs the texture-channel copies.  In this
model the stage always yields a valid shader prim, so the function always
succeeds; returns the created primitive, the next counter, and the copy
events. -/
def ParseSdfMaterial (env : FsEnv) (mat : SdfMaterial) (counter : Nat) :
    MaterialPrim × Nat × List CopyEvent :=
  let baseAttrs : List (String × AttrVal) :=
    [("diffuse_color_constant", AttrVal.color3 mat.diffuse.r mat.diffuse.g mat.diffuse.b),
     ("emissive_color", AttrVal.color3 mat.emissive.r mat.emissive.g mat.emissive.b),
     ("enable_emission", AttrVal.boolean (decide (0 < mat.emissive.a))),
     ("emissive_intensity", AttrVal.float mat.emissive.a)]
  let pbrPart : List (String × AttrVal) × List CopyEvent :=
    match mat.pbrMaterial with
    | Option.none => ([], [])
    | some pbr =>
      match pbr.selectedWorkflow with
      | Option.none => ([], [])
      | some wf =>
        let t1 := textureChannel env "diffuse_texture" wf.albedoMap
        let t2 := textureChannel env "metallic_texture" wf.metalnessMap
        let t3 := textureChannel env "normalmap_texture" wf.normalMap
        let t4 := textureChannel env "reflectionroughness_texture" wf.roughnessMap
        let influence : List (String × AttrVal) :=
          if ¬ wf.roughnessMap = "" then
            [("reflection_roughness_texture_influence", AttrVal.boolean true)]
          else []
        ([("metallic_constant", AttrVal.float wf.metalness),
          ("reflection_roughness_constant", AttrVal.float wf.roughness)]
           ++ t1.1 ++ t2.1 ++ t3.1 ++ t4.1 ++ influence,
         t1.2 ++ t2.2 ++ t3.2 ++ t4.2)
  (⟨counter, baseAttrs ++ pbrPart.1⟩, counter + 1, pbrPart.2)

/-- Shader-input lookup on a material primitive. -/
def lookupAttr (m : MaterialPrim) (name : String) : Option AttrVal :=
  m.attrs.lookup name

/-! ## Mesh data model (`gz::common::Mesh` / `gz::common::SubMesh`) -/

/-- `gz::common::SubMesh::PrimitiveType`. -/
inductive PrimitiveType
  | points
  | lines
  | linestrips
  | triangles
  | trifans
  | tristrips
deriving DecidableEq, Repr

/-- One submesh of a loaded mesh asset. -/
structure SubMesh where
  name : String
  vertices : List Vec3
  indices : List Int
  texCoords : List Vec2
  normals : List Vec3
  primType : PrimitiveType
  materialIndex : Option Nat
deriving DecidableEq, Repr

/-- A loaded mesh asset. -/
structure Mesh where
  name : String
  subMeshes : List SubMesh
  meshMin : Vec3
  meshMax : Vec3
  materials : List CommonMaterial
deriving DecidableEq, Repr

/-! ## `UpdateMesh` (`Mesh.cpp` lines 593-833) -/

/-- The `switch (subMesh->SubMeshPrimitiveType())` of `UpdateMesh`
(lines 731-754): vertices-per-face and face count per topology; `none` for
the unsupported LINESTRIPS / TRIFANS / TRISTRIPS (and default) cases, which
abort the call. -/
def faceVertexCountsOf (t : PrimitiveType) (indexCount : Nat) : Option (Nat × Nat) :=
  match t with
  | PrimitiveType.points => some (1, indexCount)
  | PrimitiveType.lines => some (2, indexCount / 2)
  | PrimitiveType.triangles => some (3, indexCount / 3)
  | _ => Option.none

/-- The geometry-primitive name for a submesh (lines 762-768):
`validPath(path + "/" + name)`, with a trailing `/` erased. -/
def subMeshPrimName (path name : String) : String :=
  let primName := validPath (path ++ "/" ++ name)
  if strEndsWith primName "/" then ⟨primName.data.dropLast⟩ else primName

/-- The first loop of `UpdateMesh` (lines 650-667): is the lowercased target
path a superstring of some submesh's lowercased name (only checked when the
mesh has more than one submesh)? -/
def anySubMeshNameInPath (mesh : Mesh) (path : String) : Bool :=
  mesh.subMeshes.any fun sm =>
    decide (mesh.subMeshes.length ≠ 1) &&
      strContains (lowercase path) (lowercase sm.name)

/-- The skip test of the second loop (lines 684-697): with the flag set and
more than one submesh, skip submeshes whose lowercased name is not contained
in the lowercased target path. -/
def skipSubMesh (inSub : Bool) (count : Nat) (path : String) (sm : SubMesh) : Bool :=
  inSub && decide (count ≠ 1) &&
    !(strContains (lowercase path) (lowercase sm.name))

/-- One loop iteration of `UpdateMesh` for a non-skipped submesh
(lines 698-829): build the point/index/uv/normal arrays (V flipped as
`1 - v`), derive the face-vertex-counts from the topology (`none` aborts the
call before any primitive is created for this submesh), define the geometry
primitive, then convert/create/bind the material when a material index is
declared, and set the scale transform.  Returns the next counter, the new
stage and the copy events, or `none` on unsupported topology. -/
def emitSubMesh (env : FsEnv) (mesh : Mesh) (path : String) (scale : Vec3)
    (sm : SubMesh) (counter : Nat) (st : Stage) :
    Option (Nat × Stage × List CopyEvent) :=
  match faceVertexCountsOf sm.primType sm.indices.length with
  | Option.none => Option.none
  | some vn =>
    let uvs := sm.texCoords.map fun uv => Vec2.mk uv.u (1 - uv.v)
    let faceVertexCounts := List.replicate vn.2 vn.1
    let primName := subMeshPrimName path sm.name
    let geom : GeomPrim :=
      { path := primName
        points := sm.vertices
        faceVertexIndices := sm.indices
        faceVertexCounts := faceVertexCounts
        primvarSt := uvs
        normals := sm.normals
        extent := [mesh.meshMin, mesh.meshMax]
        scale := scale }
    let stG : Stage := { st with geoms := st.geoms ++ [geom] }
    match sm.materialIndex with
    | Option.none => some (counter, stG, [])
    | some k =>
      let mat := mesh.materials.getD k defaultCommonMaterial
      let sdfMat := convert mat
      let pr := ParseSdfMaterial env sdfMat counter
      let stM : Stage := { stG with materials := stG.materials ++ [pr.1] }
      let stB : Stage :=
        if ¬ sdfMat.emissive = blackOpaque ∨ ¬ sdfMat.specular = blackOpaque
            ∨ sdfMat.pbrMaterial.isSome then
          { stM with bindings := stM.bindings ++ [(primName, pr.1.path)] }
        else stM
      some (pr.2.1, stB, pr.2.2)

/-- The second loop of `UpdateMesh` (lines 669-830): process the submeshes in
order, skipping filtered ones; an unsupported topology aborts the whole call
(returning `false`) with the stage as accumulated so far. -/
def processSubMeshes (env : FsEnv) (mesh : Mesh) (path : String) (scale : Vec3)
    (inSub : Bool) :
    List SubMesh → Nat → Stage → List CopyEvent → Bool × Nat × Stage × List CopyEvent
  | [], c, st, tr => (true, c, st, tr)
  | sm :: rest, c, st, tr =>
    if skipSubMesh inSub mesh.subMeshes.length path sm then
      processSubMeshes env mesh path scale inSub rest c st tr
    else
      match emitSubMesh env mesh path scale sm c st with
      | Option.none => (false, c, st, tr)
      | some r => processSubMeshes env mesh path scale inSub rest r.1 r.2.1 (tr ++ r.2.2)

/-- The remote (`http`/`https`) branch of `UpdateMesh` (lines 607-628):
decompose the URI path tokens, build the expected fuel cache path under
`<home>/.gz/fuel`, register it, and extend/register progressively with the
lower-cased nested segments starting at token index 7.  Returns the final
path and the registered paths in order; `none` models the out-of-range token
access when fewer than six tokens are present. -/
def remoteCachePaths (home : String) (tokens : List String) :
    Option (String × List String) :=
  match tokens with
  | t0 :: t1 :: t2 :: t3 :: t4 :: t5 :: rest =>
    let server := t0
    let versionServer := t1
    let owner := lowercase t2
    let ty := lowercase t3
    let modelName := lowercase t4
    let modelVersion := lowercase t5
    let base := joinPaths [home, ".gz", "fuel", server, owner, ty, modelName, modelVersion]
    some ((rest.drop 1).foldl
      (fun p tok =>
        let fn := joinPaths [p.1, lowercase tok]
        (fn, p.2 ++ [fn]))
      (base, [base]))
  | _ => Option.none

/-- The remote-branch path construction as the specification's words describe
it: every positional segment (server, protocol-version, owner, type, name,
version, and each nested segment) is lower-cased and joined under the local
cache root, with the base and each progressively deeper nested join
registered. -/
def remoteCachePathsSpec (home : String) (tokens : List String) :
    Option (String × List String) :=
  match tokens with
  | t0 :: t1 :: t2 :: t3 :: t4 :: t5 :: rest =>
    let base := joinPaths [home, ".gz", "fuel", lowercase t0, lowercase t1,
      lowercase t2, lowercase t3, lowercase t4, lowercase t5]
    some (rest.foldl
      (fun p tok =>
        let fn := joinPaths [p.1, lowercase tok]
        (fn, p.2 ++ [fn]))
      (base, [base]))
  | _ => Option.none

/-- The pre-parsed mesh reference URI: `gz::common::URI` is consumed as an
oracle exposing `Scheme()` and the `/`-split of `Path().Str()`. -/
structure UriInfo where
  scheme : String
  pathTokens : List String

/-- The conversion call's external environment: the `HOME` environment
variable (`none` = unset), the filesystem oracles, the mesh loader
(`gz::common::MeshManager::Instance()->Load`), and the URI parser. -/
structure ConvEnv where
  home : Option String
  fs : FsEnv
  load : String → Mesh
  parseUri : String → UriInfo

/-- The caller-supplied mesh reference (`gz::msgs::MeshGeom`). -/
structure MeshMsg where
  filename : String
  scale : Vec3

/-- The body of `UpdateMesh` after asset resolution: load the asset, compute
the path-filter flag, and run the submesh loop. -/
def runConversion (env : ConvEnv) (msg : MeshMsg) (path fullname : String)
    (tr : Trace) (counter : Nat) (st : Stage) : Bool × Nat × Stage × Trace :=
  let mesh := env.load fullname
  let inSub := anySubMeshNameInPath mesh path
  let r := processSubMeshes env.fs mesh path msg.scale inSub mesh.subMeshes counter st []
  (r.1, r.2.1, r.2.2.1, { tr with copies := tr.copies ++ r.2.2.2 })

/-- `gz::omniverse::UpdateMesh` (lines 593-833).  Fails immediately when the
`HOME` environment variable is unset or empty (before any file search);
resolves the asset through the remote cache-path construction or the local
two-step `findFile` search; then converts each selected submesh.  The
material-name counter is the explicit `counter` state, and the returned
`Trace` records searches, search-path registrations and texture copies. -/
def UpdateMesh (env : ConvEnv) (msg : MeshMsg) (path : String)
    (counter : Nat) (st : Stage) : Bool × Nat × Stage × Trace :=
  let uri := env.parseUri msg.filename
  match env.home with
  | Option.none => (false, counter, st, ⟨[], [], []⟩)
  | some home =>
    if home = "" then (false, counter, st, ⟨[], [], []⟩)
    else if uri.scheme = "https" ∨ uri.scheme = "http" then
      match remoteCachePaths home uri.pathTokens with
      | Option.none => (false, counter, st, ⟨[], [], []⟩)
      | some fr => runConversion env msg path fr.1 ⟨[], fr.2, []⟩ counter st
    else
      match env.fs.findFile msg.filename with
      | some f => runConversion env msg path f ⟨[msg.filename], [], []⟩ counter st
      | Option.none =>
        match env.fs.findFile (basename msg.filename) with
        | some f =>
          runConversion env msg path f
            ⟨[msg.filename, basename msg.filename], [], []⟩ counter st
        | Option.none =>
          (false, counter, st, ⟨[msg.filename, basename msg.filename], [], []⟩)

/-! ## Concrete fixtures used by witnesses and counterexamples -/

/-- The origin vector. -/
def v0 : Vec3 := ⟨0, 0, 0⟩

/-- The unit scale vector. -/
def one3 : Vec3 := ⟨1, 1, 1⟩

/-- An empty stage. -/
def stage0 : Stage := ⟨[], [], []⟩

/-- A filesystem environment where every search misses and every copy fails. -/
def fsNone : FsEnv := ⟨fun _ => Option.none, fun _ _ => false⟩

/-- A single-submesh asset whose submesh has the unsupported TRISTRIPS
topology. -/
def smCX : SubMesh := ⟨"a", [], [], [], [], PrimitiveType.tristrips, Option.none⟩

/-- The mesh holding `smCX` alone. -/
def meshCX : Mesh := ⟨"m", [smCX], v0, v0, []⟩

/-- A conversion environment that resolves every local search to `"f"` and
loads `meshCX` there. -/
def envCX : ConvEnv :=
  ⟨some "h", ⟨fun _ => some "f", fun _ _ => false⟩, fun _ => meshCX, fun _ => ⟨"", []⟩⟩

/-- A local mesh reference at unit scale. -/
def msgCX : MeshMsg := ⟨"m.dae", one3⟩

/-- A triangles submesh named `a` with no material. -/
def smA : SubMesh := ⟨"a", [], [], [], [], PrimitiveType.triangles, Option.none⟩

/-- A triangles submesh named `b` with no material. -/
def smB : SubMesh := ⟨"b", [], [], [], [], PrimitiveType.triangles, Option.none⟩

/-- A two-submesh asset with submeshes `a` and `b`. -/
def meshAB : Mesh := ⟨"m", [smA, smB], v0, v0, []⟩

/-- The submesh-loop run for `meshAB` against target path `x/a`. -/
def c1r : Bool × Nat × Stage × List CopyEvent :=
  processSubMeshes fsNone meshAB "x/a" one3 (anySubMeshNameInPath meshAB "x/a")
    meshAB.subMeshes 0 stage0 []

/-- A triangles submesh with six indices and no material. -/
def smT : SubMesh := ⟨"a", [], [0, 1, 2, 3, 4, 5], [], [], PrimitiveType.triangles, Option.none⟩

/-- The mesh holding `smT` alone. -/
def meshT : Mesh := ⟨"m", [smT], v0, v0, []⟩

/-- The emission result for `smT`. -/
def c2r : Nat × Stage × List CopyEvent :=
  (emitSubMesh fsNone meshT "p" one3 smT 0 stage0).getD (0, stage0, [])

/-- A triangles submesh that references material index 0. -/
def sm0 : SubMesh := ⟨"a", [], [], [], [], PrimitiveType.triangles, some 0⟩

/-- The mesh holding `sm0` and one purely diffuse material. -/
def mesh0 : Mesh := ⟨"m", [sm0], v0, v0, [defaultCommonMaterial]⟩

/-- The emission result for `sm0`. -/
def c3r : Nat × Stage × List CopyEvent :=
  (emitSubMesh fsNone mesh0 "p" one3 sm0 0 stage0).getD (0, stage0, [])

/-- Two submeshes, both referencing material index 0. -/
def smM1 : SubMesh := ⟨"a", [], [], [], [], PrimitiveType.triangles, some 0⟩

/-- Second submesh referencing the same material index 0. -/
def smM2 : SubMesh := ⟨"b", [], [], [], [], PrimitiveType.triangles, some 0⟩

/-- A two-submesh asset whose submeshes share material index 0. -/
def meshM2 : Mesh := ⟨"m", [smM1, smM2], v0, v0, [defaultCommonMaterial]⟩

/-- A conversion environment loading `meshM2` from every resolved path. -/
def c4env : ConvEnv :=
  ⟨some "h", ⟨fun _ => some "f", fun _ _ => false⟩, fun _ => meshM2, fun _ => ⟨"", []⟩⟩

/-- A full conversion run on `meshM2` starting at counter 0. -/
def c4r : Bool × Nat × Stage × Trace := UpdateMesh c4env msgCX "p" 0 stage0

/-- Remote URI path tokens with an upper-case server and nested segments. -/
def c5tokens : List String :=
  ["Fuel.Example.Org", "1.0", "OpenRobotics", "models", "Table", "2", "files", "Meshes"]

/-- The remote cache-path construction on `c5tokens`. -/
def c5r : String × List String := (remoteCachePaths "h" c5tokens).getD ("", [])

/-- A metal PBR workflow whose albedo map is a relative texture path. -/
def wfW : SdfPbrWorkflow := { defaultSdfPbrWorkflow with albedoMap := "dir/tex.png" }

/-- The PBR record holding `wfW` in the metal slot. -/
def pbrW : SdfPbr := ⟨some wfW, Option.none⟩

/-- An SDF material carrying `pbrW`. -/
def matW : SdfMaterial :=
  { emissive := blackOpaque
    diffuse := blackOpaque
    specular := blackOpaque
    ambient := blackOpaque
    renderOrder := 0
    lighting := true
    doubleSided := false
    normalMap := ""
    pbrMaterial := some pbrW }

/-- A native PBR record whose albedo map is empty. -/
def pbrC10 : CommonPbr :=
  { pbrType := PbrType.metal
    albedoMap := ""
    normalMap := ""
    normalMapType := NormalMapSpace.tangent
    metalnessMap := ""
    emissiveMap := ""
    roughnessMap := ""
    specularMap := ""
    environmentMap := ""
    ambientOcclusionMap := ""
    lightMap := ""
    roughness := 0
    glossiness := 0
    metalness := 0 }

/-- A native material with a legacy texture image and the PBR record
`pbrC10` whose albedo map is empty. -/
def matC10 : CommonMaterial :=
  { emissive := blackOpaque
    diffuse := blackOpaque
    specular := blackOpaque
    ambient := blackOpaque
    renderOrder := 0
    lighting := true
    twoSidedEnabled := false
    textureImage := "legacy.png"
    pbrMaterial := some pbrC10 }

/-! ## Theorems -/

/-- C7: the path sanitizer removes spaces, replaces `.`, `-`, `<`, `>`, `[`,
`]` with underscores, prepends an underscore when the first character is a
digit, and maps empty input to empty output; `"My Mesh-1.2"` sanitizes step
by step to `"MyMesh_1_2"` (spaces removed, punctuation replaced, no digit
prefix) and `"1mesh"` to `"_1mesh"`. -/
theorem c7_valid_path_examples :
    validPath "" = "" ∧
    replaceAll "My Mesh-1.2" ' ' [] = "MyMesh-1.2" ∧
    sanitizeChars "My Mesh-1.2" = "MyMesh_1_2" ∧
    firstIsDigit "MyMesh_1_2" = false ∧
    validPath "My Mesh-1.2" = "MyMesh_1_2" ∧
    firstIsDigit (sanitizeChars "1mesh") = true ∧
    validPath "1mesh" = "_1mesh" := by
  decide

/-- C8: for the non-empty all-spaces input the sanitized intermediate result
is empty, so in the Option-guarded embedding of `validPath` the
first-character digit check reaches the out-of-bounds-index error branch. -/
theorem c8_guarded_index_reachable :
    ¬ ("   " = "") ∧ sanitizeChars "   " = "" ∧ validPathGuarded "   " = Option.none := by
  decide

/-- C9: with the `HOME` environment variable unset, every conversion call —
local or remote reference alike — fails immediately at the start: it returns
`false`, leaves the stage and the material counter unchanged, and performs no
file search and no search-path registration. -/
theorem c9_home_unset_fails (fs : FsEnv) (load : String → Mesh)
    (pu : String → UriInfo) (msg : MeshMsg) (path : String) (c : Nat) (st : Stage) :
    UpdateMesh ⟨Option.none, fs, load, pu⟩ msg path c st = (false, c, st, ⟨[], [], []⟩) :=
  rfl

/-- C10: when the native material carries a PBR record whose albedo map is
empty, the converted material's workflow gets its albedo map from the
legacy single texture image. -/
theorem c10_convert_albedo_fallback (m : CommonMaterial) (p : CommonPbr)
    (hp : m.pbrMaterial = some p) (ha : p.albedoMap = "") :
    ((convert m).pbrMaterial.bind SdfPbr.selectedWorkflow).map SdfPbrWorkflow.albedoMap =
      some m.textureImage := by
  unfold convert
  rw [hp]
  by_cases hs : p.pbrType = PbrType.specular <;>
    simp [hs, ha, SdfPbr.selectedWorkflow]

/-- C10 witness: the fallback evaluated on the concrete material `matC10`. -/
theorem c10_convert_albedo_fallback_witness :
    ((convert matC10).pbrMaterial.bind SdfPbr.selectedWorkflow).map SdfPbrWorkflow.albedoMap =
      some matC10.textureImage :=
  c10_convert_albedo_fallback matC10 pbrC10 rfl rfl

/-- C5 counterexample: on a token list with an upper-case server segment the
code's cache-path construction differs from the specification's
all-segments-lower-cased-and-joined construction: the server case is kept,
and the protocol-version and first nested segments are dropped. -/
theorem c5_remote_path_counterexample :
    remoteCachePaths "h" c5tokens ≠ remoteCachePathsSpec "h" c5tokens := by
  decide

/-- C1 counterexample: a single-submesh asset whose submesh has TRISTRIPS
topology makes the conversion call fail with zero geometry primitives
emitted, refuting "exactly one geometry primitive is emitted, always". -/
theorem c1_single_submesh_counterexample :
    meshCX.subMeshes.length = 1 ∧
    UpdateMesh envCX msgCX "p" 0 stage0 = (false, 0, stage0, ⟨["m.dae"], [], []⟩) ∧
    stage0.geoms = [] :=
  ⟨rfl, rfl, rfl⟩

/-- Helper: a successful `emitSubMesh` appends exactly one geometry
primitive, with the attributes built from the submesh. -/
theorem emitSubMesh_geoms (env : FsEnv) (mesh : Mesh) (path : String) (scale : Vec3)
    (sm : SubMesh) (c : Nat) (st : Stage) (r : Nat × Stage × List CopyEvent)
    (vn : Nat × Nat)
    (hfc : faceVertexCountsOf sm.primType sm.indices.length = some vn)
    (h : emitSubMesh env mesh path scale sm c st = some r) :
    r.2.1.geoms = st.geoms ++
      [{ path := subMeshPrimName path sm.name
         points := sm.vertices
         faceVertexIndices := sm.indices
         faceVertexCounts := List.replicate vn.2 vn.1
         primvarSt := sm.texCoords.map fun uv => Vec2.mk uv.u (1 - uv.v)
         normals := sm.normals
         extent := [mesh.meshMin, mesh.meshMax]
         scale := scale }] := by
  simp only [emitSubMesh, hfc] at h
  cases hmi : sm.materialIndex with
  | none =>
    simp only [hmi] at h
    rw [Option.some.injEq] at h
    subst h
    rfl
  | some k =>
    simp only [hmi] at h
    split at h <;> (rw [Option.some.injEq] at h; subst h; rfl)

/-- Helper: the number of faces computed by the topology switch equals
`indexCount / verticesPerFace`. -/
theorem faceVertexCountsOf_div (t : PrimitiveType) (n vpf nf : Nat)
    (h : faceVertexCountsOf t n = some (vpf, nf)) : nf = n / vpf := by
  cases t <;> simp only [faceVertexCountsOf, Option.some.injEq, Prod.mk.injEq] at h <;>
    obtain ⟨h1, h2⟩ := h
  all_goals (subst h1; subst h2; simp [Nat.div_one])

/-- C2: the topology switch yields vertices-per-face 1/2/3 for
Points/Lines/Triangles with `indexCount / verticesPerFace` faces; the
emitted face-vertex-count array is uniform with that length; the switch
rejects exactly LINESTRIPS/TRIFANS/TRISTRIPS, and a non-skipped submesh
with such a topology makes the loop return `false` at once, adding no
geometry primitive for it and leaving the stage accumulated so far (earlier
submeshes' primitives) in place. -/
theorem c2_face_vertex_counts :
    (∀ n, faceVertexCountsOf PrimitiveType.points n = some (1, n / 1) ∧
      faceVertexCountsOf PrimitiveType.lines n = some (2, n / 2) ∧
      faceVertexCountsOf PrimitiveType.triangles n = some (3, n / 3)) ∧
    (∀ t n, faceVertexCountsOf t n = Option.none ↔
      (t = PrimitiveType.linestrips ∨ t = PrimitiveType.trifans ∨ t = PrimitiveType.tristrips)) ∧
    (∀ env mesh path scale sm c st r vpf numFaces,
      faceVertexCountsOf sm.primType sm.indices.length = some (vpf, numFaces) →
      emitSubMesh env mesh path scale sm c st = some r →
      r.2.1.geoms.map GeomPrim.faceVertexCounts =
        st.geoms.map GeomPrim.faceVertexCounts ++
          [List.replicate (sm.indices.length / vpf) vpf] ∧
      (List.replicate (sm.indices.length / vpf) vpf).length = sm.indices.length / vpf ∧
      ∀ x ∈ List.replicate (sm.indices.length / vpf) vpf, x = vpf) ∧
    (∀ env mesh path scale inSub sm rest c st tr,
      skipSubMesh inSub mesh.subMeshes.length path sm = false →
      faceVertexCountsOf sm.primType sm.indices.length = Option.none →
      processSubMeshes env mesh path scale inSub (sm :: rest) c st tr = (false, c, st, tr)) := by
  refine ⟨?_, ?_, ?_, ?_⟩
  · intro n
    refine ⟨?_, rfl, rfl⟩
    simp [faceVertexCountsOf, Nat.div_one]
  · intro t n
    cases t <;> simp [faceVertexCountsOf]
  · intro env mesh path scale sm c st r vpf numFaces hfc h
    have hg := emitSubMesh_geoms env mesh path scale sm c st r (vpf, numFaces) hfc h
    have hnf : numFaces = sm.indices.length / vpf :=
      faceVertexCountsOf_div sm.primType sm.indices.length vpf numFaces hfc
    subst hnf
    rw [hg]
    refine ⟨by simp, by simp, ?_⟩
    intro x hx
    exact List.eq_of_mem_replicate hx
  · intro env mesh path scale inSub sm rest c st tr hskip hfc
    simp [processSubMeshes, hskip, emitSubMesh, hfc]

/-- C2 witness: the six-index triangles submesh `smT` yields the
face-vertex-count array `[3, 3]` of length `6 / 3`. -/
theorem c2_face_vertex_counts_witness :
    c2r.2.1.geoms.map GeomPrim.faceVertexCounts =
      stage0.geoms.map GeomPrim.faceVertexCounts ++
        [List.replicate (smT.indices.length / 3) 3] ∧
    (List.replicate (smT.indices.length / 3) 3).length = smT.indices.length / 3 :=
  ⟨(c2_face_vertex_counts.2.2.1 fsNone meshT "p" one3 smT 0 stage0 c2r 3 2 rfl rfl).1,
   (c2_face_vertex_counts.2.2.1 fsNone meshT "p" one3 smT 0 stage0 c2r 3 2 rfl rfl).2.1⟩

/-- C3: for a submesh that declares a material index, the created material
primitive is bound to the submesh's geometry primitive exactly when the
converted material's emissive or specular color differs from fully-opaque
black or it carries a PBR record; otherwise no binding is added. -/
theorem c3_material_binding (env : FsEnv) (mesh : Mesh) (path : String) (scale : Vec3)
    (sm : SubMesh) (k c : Nat) (st : Stage) (r : Nat × Stage × List CopyEvent)
    (hk : sm.materialIndex = some k)
    (h : emitSubMesh env mesh path scale sm c st = some r) :
    r.2.1.bindings = st.bindings ++
      (if ¬ (convert (mesh.materials.getD k defaultCommonMaterial)).emissive = blackOpaque
          ∨ ¬ (convert (mesh.materials.getD k defaultCommonMaterial)).specular = blackOpaque
          ∨ (convert (mesh.materials.getD k defaultCommonMaterial)).pbrMaterial.isSome = true
        then [(subMeshPrimName path sm.name, "/Looks/Material_" ++ toString c)]
        else []) := by
  unfold emitSubMesh at h
  cases hfc : faceVertexCountsOf sm.primType sm.indices.length with
  | none => rw [hfc] at h; simp at h
  | some vn =>
    rw [hfc] at h
    simp only [hk] at h
    split at h
    case isTrue hcond =>
      rw [Option.some.injEq] at h
      subst h
      rw [if_pos hcond]
      rfl
    case isFalse hcond =>
      rw [Option.some.injEq] at h
      subst h
      rw [if_neg hcond]
      simp

/-- C3 witness: the purely diffuse material of `mesh0` leaves the geometry
primitive unbound. -/
theorem c3_material_binding_witness :
    c3r.2.1.bindings = stage0.bindings ++
      (if ¬ (convert (mesh0.materials.getD 0 defaultCommonMaterial)).emissive = blackOpaque
          ∨ ¬ (convert (mesh0.materials.getD 0 defaultCommonMaterial)).specular = blackOpaque
          ∨ (convert (mesh0.materials.getD 0 defaultCommonMaterial)).pbrMaterial.isSome = true
        then [(subMeshPrimName "p" sm0.name, "/Looks/Material_" ++ toString 0)]
        else []) :=
  c3_material_binding fsNone mesh0 "p" one3 sm0 0 0 stage0 c3r rfl rfl

/-- Helper: a successful `emitSubMesh` bumps the counter once per created
material (zero or one) and appends exactly that counter value to the
material-primitive indices. -/
theorem emitSubMesh_materials {env : FsEnv} {mesh : Mesh} {path : String}
    {scale : Vec3} {sm : SubMesh} {c : Nat} {st : Stage}
    {r : Nat × Stage × List CopyEvent}
    (h : emitSubMesh env mesh path scale sm c st = some r) :
    c ≤ r.1 ∧
    r.2.1.materials.map MaterialPrim.idx =
      st.materials.map MaterialPrim.idx ++ List.range' c (r.1 - c) := by
  unfold emitSubMesh at h
  cases hfc : faceVertexCountsOf sm.primType sm.indices.length with
  | none => rw [hfc] at h; simp at h
  | some vn =>
    rw [hfc] at h
    cases hmi : sm.materialIndex with
    | none =>
      simp only [hmi] at h
      rw [Option.some.injEq] at h
      subst h
      simp
    | some k =>
      simp only [hmi] at h
      split at h <;>
        (rw [Option.some.injEq] at h; subst h;
         simp [ParseSdfMaterial, MaterialPrim.idx, List.range'])

/-- Helper: the submesh loop only ever appends material primitives with
consecutive indices starting at the incoming counter, and never decreases
the counter. -/
theorem processSubMeshes_materials (env : FsEnv) (mesh : Mesh) (path : String)
    (scale : Vec3) (inSub : Bool) :
    ∀ (sms : List SubMesh) (c : Nat) (st : Stage) (tr : List CopyEvent),
      c ≤ (processSubMeshes env mesh path scale inSub sms c st tr).2.1 ∧
      (processSubMeshes env mesh path scale inSub sms c st tr).2.2.1.materials.map
          MaterialPrim.idx =
        st.materials.map MaterialPrim.idx ++
          List.range' c
            ((processSubMeshes env mesh path scale inSub sms c st tr).2.1 - c) := by
  intro sms
  induction sms with
  | nil => intro c st tr; simp [processSubMeshes]
  | cons sm rest ih =>
    intro c st tr
    by_cases hskip : skipSubMesh inSub mesh.subMeshes.length path sm = true
    · simpa only [processSubMeshes, hskip, if_true] using ih c st tr
    · rw [Bool.not_eq_true] at hskip
      cases hemit : emitSubMesh env mesh path scale sm c st with
      | none => simp [processSubMeshes, hskip, hemit]
      | some r =>
        have hm := emitSubMesh_materials hemit
        have hrec := ih r.1 r.2.1 (tr ++ r.2.2)
        simp only [processSubMeshes, hskip, Bool.false_eq_true, if_false, hemit]
        refine ⟨le_trans hm.1 hrec.1, ?_⟩
        rw [hrec.2, hm.2, List.append_assoc]
        congr 1
        have e1 : c + 1 * (r.1 - c) = r.1 := by
          have := hm.1; omega
        have e2 := List.range'_append c (r.1 - c)
          ((processSubMeshes env mesh path scale inSub rest r.1 r.2.1 (tr ++ r.2.2)).2.1 - r.1) 1
        rw [e1] at e2
        rw [e2]
        congr 1
        have h1 := hm.1
        have h2 := hrec.1
        omega

/-- Helper: the conversion body preserves the consecutive-material-index
invariant. -/
theorem runConversion_materials {env : ConvEnv} {msg : MeshMsg} {path fullname : String}
    {tr0 : Trace} {c : Nat} {st : Stage} {b : Bool} {c' : Nat} {st' : Stage} {tr : Trace}
    (h : runConversion env msg path fullname tr0 c st = (b, c', st', tr)) :
    c ≤ c' ∧
    st'.materials.map MaterialPrim.idx =
      st.materials.map MaterialPrim.idx ++ List.range' c (c' - c) := by
  unfold runConversion at h
  simp only [Prod.mk.injEq] at h
  obtain ⟨hb, hc, hst, htr⟩ := h
  subst hc
  subst hst
  exact processSubMeshes_materials env.fs (env.load fullname) path msg.scale
    (anySubMeshNameInPath (env.load fullname) path) (env.load fullname).subMeshes c st []

/-- C4: over any conversion call the material-name counter never decreases,
and the material primitives created by the call carry exactly the
consecutive counter values `c, c+1, ...` — one per material creation — with
paths `/Looks/Material_<counter>`; threading the final counter into a later
call therefore never reuses or collides with earlier names, and identical
materials are never deduplicated. -/
theorem c4_material_counter (env : ConvEnv) (msg : MeshMsg) (path : String)
    (c : Nat) (st : Stage) (b : Bool) (c' : Nat) (st' : Stage) (tr : Trace)
    (h : UpdateMesh env msg path c st = (b, c', st', tr)) :
    c ≤ c' ∧
    st'.materials.map MaterialPrim.idx =
      st.materials.map MaterialPrim.idx ++ List.range' c (c' - c) ∧
    st'.materials.map MaterialPrim.path =
      st.materials.map MaterialPrim.path ++
        (List.range' c (c' - c)).map (fun j => "/Looks/Material_" ++ toString j) := by
  suffices hs : c ≤ c' ∧
      st'.materials.map MaterialPrim.idx =
        st.materials.map MaterialPrim.idx ++ List.range' c (c' - c) by
    refine ⟨hs.1, hs.2, ?_⟩
    have hmap := congrArg (List.map (fun j => "/Looks/Material_" ++ toString j)) hs.2
    simpa [List.map_map, MaterialPrim.path, Function.comp] using hmap
  unfold UpdateMesh at h
  simp only [] at h
  repeat' split at h
  all_goals first
  | exact runConversion_materials h
  | (simp only [Prod.mk.injEq] at h; obtain ⟨hb, hc, hst, htr⟩ := h;
     subst hc; subst hst; simp)

/-- C4 witness: the two-submesh run `c4r`, whose submeshes share material
index 0, creates materials with indices `0, 1` and sequential names. -/
theorem c4_material_counter_witness :
    0 ≤ c4r.2.1 ∧
    c4r.2.2.1.materials.map MaterialPrim.idx =
      stage0.materials.map MaterialPrim.idx ++ List.range' 0 (c4r.2.1 - 0) ∧
    c4r.2.2.1.materials.map MaterialPrim.path =
      stage0.materials.map MaterialPrim.path ++
        (List.range' 0 (c4r.2.1 - 0)).map (fun j => "/Looks/Material_" ++ toString j) :=
  c4_material_counter c4env msgCX "p" 0 stage0 c4r.1 c4r.2.1 c4r.2.2.1 c4r.2.2.2 rfl

/-- Helper: when the submesh loop returns `true`, the geometry-primitive
paths appended to the stage are exactly those of the non-skipped submeshes,
in order. -/
theorem processSubMeshes_true_geoms (env : FsEnv) (mesh : Mesh) (path : String)
    (scale : Vec3) (inSub : Bool) :
    ∀ (sms : List SubMesh) (c : Nat) (st : Stage) (tr : List CopyEvent)
      (c' : Nat) (st' : Stage) (tr' : List CopyEvent),
      processSubMeshes env mesh path scale inSub sms c st tr = (true, c', st', tr') →
      st'.geoms.map GeomPrim.path = st.geoms.map GeomPrim.path ++
        ((sms.filter fun sm => !skipSubMesh inSub mesh.subMeshes.length path sm).map
          fun sm => subMeshPrimName path sm.name) := by
  intro sms
  induction sms with
  | nil =>
    intro c st tr c' st' tr' h
    simp only [processSubMeshes, Prod.mk.injEq] at h
    obtain ⟨hb, hc, hst, htr⟩ := h
    subst hst
    simp
  | cons sm rest ih =>
    intro c st tr c' st' tr' h
    by_cases hskip : skipSubMesh inSub mesh.subMeshes.length path sm = true
    · simp only [processSubMeshes, hskip, if_true] at h
      have hrec := ih c st tr c' st' tr' h
      rw [hrec]
      simp [List.filter_cons, hskip]
    · rw [Bool.not_eq_true] at hskip
      cases hemit : emitSubMesh env mesh path scale sm c st with
      | none =>
        simp only [processSubMeshes, hskip, Bool.false_eq_true, if_false, hemit] at h
        exact absurd h (by simp)
      | some r =>
        simp only [processSubMeshes, hskip, Bool.false_eq_true, if_false, hemit] at h
        have hrec := ih r.1 r.2.1 (tr ++ r.2.2) c' st' tr' h
        cases hfc : faceVertexCountsOf sm.primType sm.indices.length with
        | none => simp [emitSubMesh, hfc] at hemit
        | some vn =>
          have hg := emitSubMesh_geoms env mesh path scale sm c st r vn hfc hemit
          rw [hrec, hg]
          simp [List.filter_cons, hskip]

/-- C1 (amended): whenever the submesh loop of a conversion call succeeds,
the geometry primitives it emits are exactly: all submeshes when the asset
has a single submesh (path filtering bypassed, one primitive); only the
submeshes whose lowercased name is contained in the lowercased target path
when the asset has several submeshes and some name is so contained;
otherwise all submeshes — each under the sanitized path derived from
`target-path + "/" + submesh-name`. -/
theorem c1_submesh_selection_amended (fs : FsEnv) (mesh : Mesh) (path : String)
    (scale : Vec3) (c c' : Nat) (st st' : Stage) (tr' : List CopyEvent)
    (h : processSubMeshes fs mesh path scale (anySubMeshNameInPath mesh path)
        mesh.subMeshes c st [] = (true, c', st', tr')) :
    st'.geoms.map GeomPrim.path = st.geoms.map GeomPrim.path ++
      ((if mesh.subMeshes.length = 1 then mesh.subMeshes
        else if mesh.subMeshes.any
            (fun sm => strContains (lowercase path) (lowercase sm.name)) = true then
          mesh.subMeshes.filter fun sm => strContains (lowercase path) (lowercase sm.name)
        else mesh.subMeshes).map fun sm => subMeshPrimName path sm.name) := by
  have hg := processSubMeshes_true_geoms fs mesh path scale
    (anySubMeshNameInPath mesh path) mesh.subMeshes c st [] c' st' tr' h
  suffices hf : (mesh.subMeshes.filter fun sm =>
      !skipSubMesh (anySubMeshNameInPath mesh path) mesh.subMeshes.length path sm) =
      (if mesh.subMeshes.length = 1 then mesh.subMeshes
       else if mesh.subMeshes.any
           (fun sm => strContains (lowercase path) (lowercase sm.name)) = true then
         mesh.subMeshes.filter fun sm => strContains (lowercase path) (lowercase sm.name)
       else mesh.subMeshes) by
    rw [hg, hf]
  by_cases h1 : mesh.subMeshes.length = 1
  · rw [if_pos h1]
    exact List.filter_eq_self.mpr fun a ha => by simp [skipSubMesh, h1]
  · rw [if_neg h1]
    by_cases h2 : mesh.subMeshes.any
        (fun sm => strContains (lowercase path) (lowercase sm.name)) = true
    · rw [if_pos h2]
      have hin : anySubMeshNameInPath mesh path = true := by
        unfold anySubMeshNameInPath
        rw [List.any_eq_true] at h2 ⊢
        obtain ⟨sm, hsm, hP⟩ := h2
        exact ⟨sm, hsm, by simp [h1, hP]⟩
      exact List.filter_congr fun x hx => by simp [skipSubMesh, hin, h1]
    · rw [if_neg h2]
      have hin : anySubMeshNameInPath mesh path = false := by
        unfold anySubMeshNameInPath
        rw [Bool.not_eq_true, List.any_eq_false] at h2
        rw [List.any_eq_false]
        intro sm hsm
        simp [h2 sm hsm]
      exact List.filter_eq_self.mpr fun a ha => by simp [skipSubMesh, hin]

/-- C1 (amended) witness: for the two-submesh asset `meshAB` and target path
`x/a` — which contains submesh name `a` but not `b` — the successful run
emits exactly the submesh `a` at path `x/a/a`. -/
theorem c1_submesh_selection_amended_witness :
    c1r.2.2.1.geoms.map GeomPrim.path = stage0.geoms.map GeomPrim.path ++
      ((if meshAB.subMeshes.length = 1 then meshAB.subMeshes
        else if meshAB.subMeshes.any
            (fun sm => strContains (lowercase "x/a") (lowercase sm.name)) = true then
          meshAB.subMeshes.filter fun sm => strContains (lowercase "x/a") (lowercase sm.name)
        else meshAB.subMeshes).map fun sm => subMeshPrimName "x/a" sm.name) :=
  c1_submesh_selection_amended fsNone meshAB "x/a" one3 0 c1r.2.1 stage0 c1r.2.2.1
    c1r.2.2.2 rfl

/-- Helper: prepending to a non-empty join. -/
theorem joinPaths_cons_ne (a : String) (t : List String) (ht : t ≠ []) :
    joinPaths (a :: t) = a ++ "/" ++ joinPaths t := by
  cases t with
  | nil => exact absurd rfl ht
  | cons b t' => rfl

/-- Helper: appending one segment to a non-empty join. -/
theorem joinPaths_snoc (l : List String) (x : String) (hl : l ≠ []) :
    joinPaths (l ++ [x]) = joinPaths l ++ "/" ++ x := by
  induction l with
  | nil => exact absurd rfl hl
  | cons a t ih =>
    cases t with
    | nil => rfl
    | cons b t' =>
      rw [List.cons_append, joinPaths_cons_ne a ((b :: t') ++ [x]) (by simp),
        joinPaths_cons_ne a (b :: t') (by simp), ih (by simp)]
      simp [String.append_assoc]

/-- Helper: the registration fold of the remote branch, characterized by the
flat joins of the progressively longer lower-cased prefixes. -/
theorem remoteFold_spec (segs : List String) :
    ∀ (B : List String), B ≠ [] → ∀ (acc : List String),
      segs.foldl (fun p tok =>
        let fn := joinPaths [p.1, lowercase tok]
        (fn, p.2 ++ [fn])) (joinPaths B, acc) =
      (joinPaths (B ++ segs.map lowercase),
       acc ++ (List.range segs.length).map
         (fun k => joinPaths (B ++ (segs.map lowercase).take (k + 1)))) := by
  induction segs with
  | nil => intro B hB acc; simp
  | cons s t ih =>
    intro B hB acc
    rw [List.foldl_cons]
    have hfn : joinPaths [joinPaths B, lowercase s] = joinPaths (B ++ [lowercase s]) := by
      rw [joinPaths_snoc B (lowercase s) hB]
      rfl
    simp only [hfn]
    have hrec := ih (B ++ [lowercase s]) (by simp) (acc ++ [joinPaths (B ++ [lowercase s])])
    rw [hrec]
    simp [List.range_succ_eq_map, List.map_map, List.take_succ_cons,
      List.append_assoc, Function.comp]

/-- C5 (amended): for a remote-fetch URI with tokens
`server :: protocol-version :: owner :: type :: name :: version :: rest`,
the code keeps the server segment verbatim (no lower-casing), drops the
protocol-version segment and the first nested segment (`rest`'s head) from
the join, lower-cases owner/type/name/version and the remaining nested
segments, and registers the base cache path
`<home>/.gz/fuel/<server>/<owner>/<type>/<name>/<version>` followed by each
progressively deeper join of the remaining nested segments; the final path
is the deepest such join. -/
theorem c5_remote_path_amended (home t0 t1 t2 t3 t4 t5 : String) (rest : List String)
    (full : String) (regs : List String)
    (h : remoteCachePaths home (t0 :: t1 :: t2 :: t3 :: t4 :: t5 :: rest) =
      some (full, regs)) :
    regs = (List.range ((rest.drop 1).length + 1)).map (fun k =>
        joinPaths ([home, ".gz", "fuel", t0, lowercase t2, lowercase t3, lowercase t4,
          lowercase t5] ++ (((rest.drop 1).map lowercase).take k))) ∧
    full = joinPaths ([home, ".gz", "fuel", t0, lowercase t2, lowercase t3, lowercase t4,
        lowercase t5] ++ (rest.drop 1).map lowercase) := by
  unfold remoteCachePaths at h
  simp only [] at h
  rw [Option.some.injEq] at h
  rw [remoteFold_spec (rest.drop 1)
    [home, ".gz", "fuel", t0, lowercase t2, lowercase t3, lowercase t4, lowercase t5]
    (by simp) [joinPaths [home, ".gz", "fuel", t0, lowercase t2, lowercase t3,
      lowercase t4, lowercase t5]]] at h
  rw [Prod.mk.injEq] at h
  obtain ⟨hfull, hregs⟩ := h
  subst hfull
  subst hregs
  refine ⟨?_, rfl⟩
  rw [List.range_succ_eq_map, List.map_cons, List.map_map]
  simp [Function.comp]

/-- C5 (amended) witness: the characterization evaluated on the concrete
token list `c5tokens`. -/
theorem c5_remote_path_amended_witness :
    c5r.2 = (List.range ((["files", "Meshes"].drop 1).length + 1)).map (fun k =>
        joinPaths (["h", ".gz", "fuel", "Fuel.Example.Org", lowercase "OpenRobotics",
          lowercase "models", lowercase "Table", lowercase "2"]
            ++ (((["files", "Meshes"].drop 1).map lowercase).take k))) ∧
    c5r.1 = joinPaths (["h", ".gz", "fuel", "Fuel.Example.Org", lowercase "OpenRobotics",
        lowercase "models", lowercase "Table", lowercase "2"]
          ++ (["files", "Meshes"].drop 1).map lowercase) :=
  c5_remote_path_amended "h" "Fuel.Example.Org" "1.0" "OpenRobotics" "models" "Table" "2"
    ["files", "Meshes"] c5r.1 c5r.2 rfl

/-- Helper: a texture channel's shader-input attributes do not depend on the
copy oracle (only the recorded copy event does). -/
theorem textureChannel_attrs (ff : String → Option String)
    (cp1 cp2 : String → String → Bool) (n m : String) :
    (textureChannel ⟨ff, cp1⟩ n m).1 = (textureChannel ⟨ff, cp2⟩ n m).1 := by
  by_cases hm : m = "" <;> simp [textureChannel, hm]

/-- Helper: the created material primitive and the next counter do not
depend on the copy oracle. -/
theorem ParseSdfMaterial_copyOk (ff : String → Option String)
    (cp1 cp2 : String → String → Bool) (mat : SdfMaterial) (c : Nat) :
    (ParseSdfMaterial ⟨ff, cp1⟩ mat c).1 = (ParseSdfMaterial ⟨ff, cp2⟩ mat c).1 ∧
    (ParseSdfMaterial ⟨ff, cp1⟩ mat c).2.1 = (ParseSdfMaterial ⟨ff, cp2⟩ mat c).2.1 := by
  refine ⟨?_, rfl⟩
  unfold ParseSdfMaterial
  simp only []
  cases hp : mat.pbrMaterial with
  | none => rfl
  | some pbr =>
    cases hw : pbr.selectedWorkflow with
    | none => simp only [hw]
    | some wf =>
      simp only [hw]
      rw [textureChannel_attrs ff cp1 cp2 "diffuse_texture" wf.albedoMap,
        textureChannel_attrs ff cp1 cp2 "metallic_texture" wf.metalnessMap,
        textureChannel_attrs ff cp1 cp2 "normalmap_texture" wf.normalMap,
        textureChannel_attrs ff cp1 cp2 "reflectionroughness_texture" wf.roughnessMap]

/-- Helper: the emitted counter and stage do not depend on the copy oracle. -/
theorem emitSubMesh_copyOk (ff : String → Option String)
    (cp1 cp2 : String → String → Bool) (mesh : Mesh) (path : String) (scale : Vec3)
    (sm : SubMesh) (c : Nat) (st : Stage) :
    Option.map (fun r => (r.1, r.2.1)) (emitSubMesh ⟨ff, cp1⟩ mesh path scale sm c st) =
    Option.map (fun r => (r.1, r.2.1)) (emitSubMesh ⟨ff, cp2⟩ mesh path scale sm c st) := by
  unfold emitSubMesh
  cases hfc : faceVertexCountsOf sm.primType sm.indices.length with
  | none => rfl
  | some vn =>
    simp only []
    cases hmi : sm.materialIndex with
    | none => rfl
    | some k =>
      simp only []
      have hpp := ParseSdfMaterial_copyOk ff cp1 cp2
        (convert (mesh.materials.getD k defaultCommonMaterial)) c
      rw [hpp.1, hpp.2]
      simp

/-- Helper: the loop's success flag, counter and stage do not depend on the
copy oracle. -/
theorem processSubMeshes_copyOk (ff : String → Option String)
    (cp1 cp2 : String → String → Bool) (mesh : Mesh) (path : String) (scale : Vec3)
    (inSub : Bool) :
    ∀ (sms : List SubMesh) (c : Nat) (st : Stage) (tr1 tr2 : List CopyEvent),
      (processSubMeshes ⟨ff, cp1⟩ mesh path scale inSub sms c st tr1).1 =
        (processSubMeshes ⟨ff, cp2⟩ mesh path scale inSub sms c st tr2).1 ∧
      (processSubMeshes ⟨ff, cp1⟩ mesh path scale inSub sms c st tr1).2.1 =
        (processSubMeshes ⟨ff, cp2⟩ mesh path scale inSub sms c st tr2).2.1 ∧
      (processSubMeshes ⟨ff, cp1⟩ mesh path scale inSub sms c st tr1).2.2.1 =
        (processSubMeshes ⟨ff, cp2⟩ mesh path scale inSub sms c st tr2).2.2.1 := by
  intro sms
  induction sms with
  | nil => intro c st tr1 tr2; exact ⟨rfl, rfl, rfl⟩
  | cons sm rest ih =>
    intro c st tr1 tr2
    by_cases hskip : skipSubMesh inSub mesh.subMeshes.length path sm = true
    · simp only [processSubMeshes, hskip, if_true]
      exact ih c st tr1 tr2
    · rw [Bool.not_eq_true] at hskip
      have hmap := emitSubMesh_copyOk ff cp1 cp2 mesh path scale sm c st
      cases he1 : emitSubMesh ⟨ff, cp1⟩ mesh path scale sm c st with
      | none =>
        rw [he1] at hmap
        cases he2 : emitSubMesh ⟨ff, cp2⟩ mesh path scale sm c st with
        | none =>
          simp only [processSubMeshes, hskip, Bool.false_eq_true, if_false, he1, he2]
          exact ⟨trivial, trivial, trivial⟩
        | some r2 => rw [he2] at hmap; simp at hmap
      | some r1 =>
        rw [he1] at hmap
        cases he2 : emitSubMesh ⟨ff, cp2⟩ mesh path scale sm c st with
        | none => rw [he2] at hmap; simp at hmap
        | some r2 =>
          rw [he2] at hmap
          simp only [Option.map_some', Option.some.injEq, Prod.mk.injEq] at hmap
          obtain ⟨hc, hst⟩ := hmap
          simp only [processSubMeshes, hskip, Bool.false_eq_true, if_false, he1, he2]
          rw [hc, hst]
          exact ih r2.1 r2.2.1 (tr1 ++ r1.2.2) (tr2 ++ r2.2.2)

/-- Helper: the conversion body's success flag, counter and stage do not
depend on the copy oracle. -/
theorem runConversion_copyOk (home : Option String) (ff : String → Option String)
    (cp1 cp2 : String → String → Bool) (load : String → Mesh) (pu : String → UriInfo)
    (msg : MeshMsg) (path fullname : String) (tr01 tr02 : Trace) (c : Nat) (st : Stage) :
    (runConversion ⟨home, ⟨ff, cp1⟩, load, pu⟩ msg path fullname tr01 c st).1 =
      (runConversion ⟨home, ⟨ff, cp2⟩, load, pu⟩ msg path fullname tr02 c st).1 ∧
    (runConversion ⟨home, ⟨ff, cp1⟩, load, pu⟩ msg path fullname tr01 c st).2.1 =
      (runConversion ⟨home, ⟨ff, cp2⟩, load, pu⟩ msg path fullname tr02 c st).2.1 ∧
    (runConversion ⟨home, ⟨ff, cp1⟩, load, pu⟩ msg path fullname tr01 c st).2.2.1 =
      (runConversion ⟨home, ⟨ff, cp2⟩, load, pu⟩ msg path fullname tr02 c st).2.2.1 := by
  unfold runConversion
  simp only []
  exact processSubMeshes_copyOk ff cp1 cp2 (load fullname) path msg.scale
    (anySubMeshNameInPath (load fullname) path) (load fullname).subMeshes c st [] []

/-- C6: texture-copy failures are non-fatal and invisible outside the
diagnostic trace — two conversion runs differing only in the copy oracle
return the same success flag, counter and stage — and whenever a workflow's
albedo map is populated, the shader's `diffuse_texture` input is set to the
destination path `materials/textures/<basename>` for every copy oracle,
including an always-failing one. -/
theorem c6_texture_copy_nonfatal :
    (∀ (home : Option String) (load : String → Mesh) (pu : String → UriInfo)
        (ff : String → Option String) (cp1 cp2 : String → String → Bool)
        (msg : MeshMsg) (path : String) (c : Nat) (st : Stage),
      (UpdateMesh ⟨home, ⟨ff, cp1⟩, load, pu⟩ msg path c st).1 =
        (UpdateMesh ⟨home, ⟨ff, cp2⟩, load, pu⟩ msg path c st).1 ∧
      (UpdateMesh ⟨home, ⟨ff, cp1⟩, load, pu⟩ msg path c st).2.1 =
        (UpdateMesh ⟨home, ⟨ff, cp2⟩, load, pu⟩ msg path c st).2.1 ∧
      (UpdateMesh ⟨home, ⟨ff, cp1⟩, load, pu⟩ msg path c st).2.2.1 =
        (UpdateMesh ⟨home, ⟨ff, cp2⟩, load, pu⟩ msg path c st).2.2.1) ∧
    (∀ (ff : String → Option String) (cp : String → String → Bool)
        (mat : SdfMaterial) (c : Nat) (pbr : SdfPbr) (wf : SdfPbrWorkflow),
      mat.pbrMaterial = some pbr →
      pbr.selectedWorkflow = some wf →
      ¬ wf.albedoMap = "" →
      lookupAttr (ParseSdfMaterial ⟨ff, cp⟩ mat c).1 "diffuse_texture" =
        some (AttrVal.asset (getMaterialCopyPath wf.albedoMap))) := by
  constructor
  · intro home load pu ff cp1 cp2 msg path c st
    unfold UpdateMesh
    simp only []
    cases home with
    | none => exact ⟨rfl, rfl, rfl⟩
    | some hv =>
      simp only []
      by_cases hhv : hv = ""
      · simp [hhv]
      · simp only [if_neg hhv]
        by_cases hsch : (pu msg.filename).scheme = "https" ∨ (pu msg.filename).scheme = "http"
        · simp only [if_pos hsch]
          cases hrc : remoteCachePaths hv (pu msg.filename).pathTokens with
          | none => exact ⟨rfl, rfl, rfl⟩
          | some fr =>
            exact runConversion_copyOk (some hv) ff cp1 cp2 load pu msg path fr.1
              ⟨[], fr.2, []⟩ ⟨[], fr.2, []⟩ c st
        · simp only [if_neg hsch]
          cases hff : ff msg.filename with
          | some f =>
            exact runConversion_copyOk (some hv) ff cp1 cp2 load pu msg path f
              ⟨[msg.filename], [], []⟩ ⟨[msg.filename], [], []⟩ c st
          | none =>
            cases hff2 : ff (basename msg.filename) with
            | some f =>
              exact runConversion_copyOk (some hv) ff cp1 cp2 load pu msg path f
                ⟨[msg.filename, basename msg.filename], [], []⟩
                ⟨[msg.filename, basename msg.filename], [], []⟩ c st
            | none => exact ⟨rfl, rfl, rfl⟩
  · intro ff cp mat c pbr wf hp hw ha
    unfold ParseSdfMaterial lookupAttr
    simp only [hp, hw]
    unfold textureChannel
    rw [if_pos ha]
    simp [List.lookup, getMaterialCopyPath]

/-- C6 witness: with every search missing and every copy failing, the
material built from `matW` still carries the `diffuse_texture` input set to
`materials/textures/tex.png`. -/
theorem c6_texture_copy_nonfatal_witness :
    lookupAttr (ParseSdfMaterial ⟨fun _ => Option.none, fun _ _ => false⟩ matW 0).1
        "diffuse_texture" =
      some (AttrVal.asset (getMaterialCopyPath wfW.albedoMap)) :=
  c6_texture_copy_nonfatal.2 (fun _ => Option.none) (fun _ _ => false) matW 0 pbrW wfW
    rfl rfl (by decide)
